import Mathlib

/-!
Shallow embedding of `ember_jsonl_to_csv.py` (class `EMBERJsonlToCSV`).

Modelling conventions:
* A decoded JSON value is `JVal`; Python dicts preserve insertion order and
  are modelled as association lists `List (String × JVal)`.
* Python numbers are modelled as rationals `ℚ`; Python `bool` participates in
  arithmetic and numeric comparison (`True` counts as `1`), which `pyNum`
  reflects.
* An extractor in the source returns a pair `(status, value)` and may in
  addition raise an uncaught exception (`TypeError`, `KeyError`,
  `IndexError`, `AttributeError`).  We model the three outcomes as
  `Except ExErr JVal`: `.ok v` for `(True, v)`, `.error .notFound` for
  `(False, None)`, and `.error .pyExc` for an uncaught exception.
* `float('inf')` / `float('-inf')` appear in the source only as the initial
  accumulator of a running min/max over finite record scalars; they are
  modelled by an `Option ℚ` accumulator whose `none` compares above
  (resp. below) every rational, exactly as the infinities do against the
  finite values stored in a record.
-/

namespace EmberJsonlToCsv

/-- A decoded JSON value (the in-memory tree produced by the out-of-scope
line decoder): number, string, boolean, null, object or array. -/
inductive JVal where
  | num (q : ℚ)
  | str (s : String)
  | bool (b : Bool)
  | null
  | obj (fields : List (String × JVal))
  | arr (items : List JVal)

/-- A record: one decoded JSONL line, a mapping from string keys to values
(`json_data: dict` in the source). -/
abbrev Record := List (String × JVal)

mutual

/-- `_search_and_get` (source lines 139-165): walk the mapping's entries in
order; if the key equals the feature, return its value; else if the value is
a dict, recurse into it; else if the value is a list, recurse into its
dict-typed elements in order; the first positive result wins; `none` models
the `(False, None)` return after the whole tree is exhausted. -/
def search_and_get : List (String × JVal) → String → Option JVal
  | [], _ => none
  | (k, v) :: rest, feature =>
    if k = feature then some v
    else
      match v with
      | JVal.obj fs =>
        match search_and_get fs feature with
        | some x => some x
        | none => search_and_get rest feature
      | JVal.arr items =>
        match searchItems items feature with
        | some x => some x
        | none => search_and_get rest feature
      | _ => search_and_get rest feature

/-- The inner `for item in value` loop of `_search_and_get` (source lines
158-163): recurse into the dict-typed elements of a list, in order; non-dict
elements are skipped. -/
def searchItems : List JVal → String → Option JVal
  | [], _ => none
  | JVal.obj fs :: rest, feature =>
    match search_and_get fs feature with
    | some x => some x
    | none => searchItems rest feature
  | _ :: rest, feature => searchItems rest feature

end

/-- Outcome tag for an extractor call: `notFound` models the `(False, None)`
return, `pyExc` models an uncaught Python exception escaping the call. -/
inductive ExErr where
  | notFound
  | pyExc
deriving DecidableEq, Repr

/-- Numeric view of a value under Python arithmetic and comparison: numbers
are themselves, `bool` coerces to 0/1, everything else raises when added to
or compared with a number. -/
def pyNum : JVal → Option ℚ
  | JVal.num q => some q
  | JVal.bool b => some (if b then 1 else 0)
  | _ => none

/-- Python `len`: defined on lists, dicts and strings, raises on other
values. -/
def pyLen : JVal → Option Nat
  | JVal.arr items => some items.length
  | JVal.obj fields => some fields.length
  | JVal.str s => some s.length
  | _ => none

/-- Python integer subscript `container[i]`: in-range list indexing
succeeds; everything else raises (`IndexError` out of range, `KeyError` on a
JSON dict whose keys are strings, and a string subscript yields a character
on which the subsequent string-key subscript raises, so it is folded into
`pyExc` here). -/
def pyGetItem (v : JVal) (i : Nat) : Except ExErr JVal :=
  match v with
  | JVal.arr items =>
    match items.get? i with
    | some x => .ok x
    | none => .error .pyExc
  | _ => .error .pyExc

/-- Python string subscript `container["key"]` (direct dict access, not the
recursive search): a present dict key succeeds, a missing one raises
`KeyError`, a non-dict container raises `TypeError`. -/
def pyGetKey (v : JVal) (key : String) : Except ExErr JVal :=
  match v with
  | JVal.obj fields =>
    match fields.lookup key with
    | some x => .ok x
    | none => .error .pyExc
  | _ => .error .pyExc

/-- `_get_debug_size` (source lines 180-190).  The source defines
`_get_debug_size` twice (lines 168-178 and 180-190); Python binds the later
definition, whose body reads entry 6's `virtual_address` (its local variable
is even named `debug_rva`), so that is the behaviour embedded here.  The
shadowed first definition at lines 168-178 read entry 6's `size`. -/
def get_debug_size (json_data : Record) : Except ExErr JVal :=
  match search_and_get json_data "datadirectories" with
  | none => .error .notFound
  | some datadirectories =>
    match pyLen datadirectories with
    | none => .error .pyExc
    | some 0 => .ok (JVal.num 0)
    | some (_ + 1) =>
      match pyGetItem datadirectories 6 with
      | .error e => .error e
      | .ok entry => pyGetKey entry "virtual_address"

/-- `_get_debug_rva` (source lines 192-202): entry 6's `virtual_address`. -/
def get_debug_rva (json_data : Record) : Except ExErr JVal :=
  match search_and_get json_data "datadirectories" with
  | none => .error .notFound
  | some datadirectories =>
    match pyLen datadirectories with
    | none => .error .pyExc
    | some 0 => .ok (JVal.num 0)
    | some (_ + 1) =>
      match pyGetItem datadirectories 6 with
      | .error e => .error e
      | .ok entry => pyGetKey entry "virtual_address"

/-- `_get_iat_rva` (source lines 204-214): entry 12's `virtual_address`. -/
def get_iat_rva (json_data : Record) : Except ExErr JVal :=
  match search_and_get json_data "datadirectories" with
  | none => .error .notFound
  | some datadirectories =>
    match pyLen datadirectories with
    | none => .error .pyExc
    | some 0 => .ok (JVal.num 0)
    | some (_ + 1) =>
      match pyGetItem datadirectories 12 with
      | .error e => .error e
      | .ok entry => pyGetKey entry "virtual_address"

/-- `_get_export_size` (source lines 216-226): entry 0's `size`. -/
def get_export_size (json_data : Record) : Except ExErr JVal :=
  match search_and_get json_data "datadirectories" with
  | none => .error .notFound
  | some datadirectories =>
    match pyLen datadirectories with
    | none => .error .pyExc
    | some 0 => .ok (JVal.num 0)
    | some (_ + 1) =>
      match pyGetItem datadirectories 0 with
      | .error e => .error e
      | .ok entry => pyGetKey entry "size"

/-- `_get_export_rva` (source lines 228-238): the body reads entry 0's
`size` (not `virtual_address`), exactly like `_get_export_size`. -/
def get_export_rva (json_data : Record) : Except ExErr JVal :=
  match search_and_get json_data "datadirectories" with
  | none => .error .notFound
  | some datadirectories =>
    match pyLen datadirectories with
    | none => .error .pyExc
    | some 0 => .ok (JVal.num 0)
    | some (_ + 1) =>
      match pyGetItem datadirectories 0 with
      | .error e => .error e
      | .ok entry => pyGetKey entry "size"

/-- `_get_resource_size` (source lines 240-250): entry 2's `size`. -/
def get_resource_size (json_data : Record) : Except ExErr JVal :=
  match search_and_get json_data "datadirectories" with
  | none => .error .notFound
  | some datadirectories =>
    match pyLen datadirectories with
    | none => .error .pyExc
    | some 0 => .ok (JVal.num 0)
    | some (_ + 1) =>
      match pyGetItem datadirectories 2 with
      | .error e => .error e
      | .ok entry => pyGetKey entry "size"

/-- The per-section summation loop shared verbatim by the three `mean`
aggregates (e.g. source lines 272-283): for each section, resolve the
sub-field by the recursive search scoped to that section; a miss returns
`(False, None)`, a non-numeric hit raises on `+=`, a non-dict section raises
on `.items()`. -/
def sumField (feature : String) : List JVal → ℚ → Except ExErr ℚ
  | [], acc => .ok acc
  | sec :: rest, acc =>
    match sec with
    | JVal.obj fs =>
      match search_and_get fs feature with
      | some v =>
        match pyNum v with
        | some q => sumField feature rest (acc + q)
        | none => .error .pyExc
      | none => .error .notFound
    | _ => .error .pyExc

/-- One step `entropy = min(entropy, value)` of a running-minimum loop: the
accumulator `none` is the initial `float('inf')`, which compares above every
finite record scalar. -/
def runMin (acc : Option ℚ) (q : ℚ) : Option ℚ :=
  some (match acc with | none => q | some a => min a q)

/-- One step `entropy = max(entropy, value)` of a running-maximum loop: the
accumulator `none` is the initial `float('-inf')`. -/
def runMax (acc : Option ℚ) (q : ℚ) : Option ℚ :=
  some (match acc with | none => q | some a => max a q)

/-- The running-minimum loop shared by the three `min` aggregates (e.g.
source lines 304-315). -/
def minField (feature : String) : List JVal → Option ℚ → Except ExErr (Option ℚ)
  | [], acc => .ok acc
  | sec :: rest, acc =>
    match sec with
    | JVal.obj fs =>
      match search_and_get fs feature with
      | some v =>
        match pyNum v with
        | some q => minField feature rest (runMin acc q)
        | none => .error .pyExc
      | none => .error .notFound
    | _ => .error .pyExc

/-- The running-maximum loop shared by the three `max` aggregates (e.g.
source lines 336-347). -/
def maxField (feature : String) : List JVal → Option ℚ → Except ExErr (Option ℚ)
  | [], acc => .ok acc
  | sec :: rest, acc =>
    match sec with
    | JVal.obj fs =>
      match search_and_get fs feature with
      | some v =>
        match pyNum v with
        | some q => maxField feature rest (runMax acc q)
        | none => .error .pyExc
      | none => .error .notFound
    | _ => .error .pyExc

/-- `_get_sections_mean_entropy` (source lines 253-283): resolve
`"sections"`, return `0.0` when empty, otherwise sum each section's
`entropy` and divide by the count.  Iterating a non-list of nonzero length
yields strings on which the scoped search raises, hence `pyExc`. -/
def get_sections_mean_entropy (json_data : Record) : Except ExErr JVal :=
  match search_and_get json_data "sections" with
  | none => .error .notFound
  | some sections =>
    match pyLen sections with
    | none => .error .pyExc
    | some 0 => .ok (JVal.num 0)
    | some (n + 1) =>
      match sections with
      | JVal.arr items =>
        match sumField "entropy" items 0 with
        | .ok s => .ok (JVal.num (s / (n + 1 : ℚ)))
        | .error e => .error e
      | _ => .error .pyExc

/-- `_get_sections_min_entropy` (source lines 285-315).  The `.ok none`
branch would be Python returning the untouched `float('inf')`; the length
guard makes it unreachable, so it is mapped to `pyExc`. -/
def get_sections_min_entropy (json_data : Record) : Except ExErr JVal :=
  match search_and_get json_data "sections" with
  | none => .error .notFound
  | some sections =>
    match pyLen sections with
    | none => .error .pyExc
    | some 0 => .ok (JVal.num 0)
    | some (_ + 1) =>
      match sections with
      | JVal.arr items =>
        match minField "entropy" items none with
        | .ok (some m) => .ok (JVal.num m)
        | .ok none => .error .pyExc
        | .error e => .error e
      | _ => .error .pyExc

/-- `_get_sections_max_entropy` (source lines 317-347). -/
def get_sections_max_entropy (json_data : Record) : Except ExErr JVal :=
  match search_and_get json_data "sections" with
  | none => .error .notFound
  | some sections =>
    match pyLen sections with
    | none => .error .pyExc
    | some 0 => .ok (JVal.num 0)
    | some (_ + 1) =>
      match sections with
      | JVal.arr items =>
        match maxField "entropy" items none with
        | .ok (some m) => .ok (JVal.num m)
        | .ok none => .error .pyExc
        | .error e => .error e
      | _ => .error .pyExc

/-- `_get_sections_mean_raw_size` (source lines 349-379): as mean entropy
but over the per-section `size` field. -/
def get_sections_mean_raw_size (json_data : Record) : Except ExErr JVal :=
  match search_and_get json_data "sections" with
  | none => .error .notFound
  | some sections =>
    match pyLen sections with
    | none => .error .pyExc
    | some 0 => .ok (JVal.num 0)
    | some (n + 1) =>
      match sections with
      | JVal.arr items =>
        match sumField "size" items 0 with
        | .ok s => .ok (JVal.num (s / (n + 1 : ℚ)))
        | .error e => .error e
      | _ => .error .pyExc

/-- `_get_sections_min_raw_size` (source lines 381-411). -/
def get_sections_min_raw_size (json_data : Record) : Except ExErr JVal :=
  match search_and_get json_data "sections" with
  | none => .error .notFound
  | some sections =>
    match pyLen sections with
    | none => .error .pyExc
    | some 0 => .ok (JVal.num 0)
    | some (_ + 1) =>
      match sections with
      | JVal.arr items =>
        match minField "size" items none with
        | .ok (some m) => .ok (JVal.num m)
        | .ok none => .error .pyExc
        | .error e => .error e
      | _ => .error .pyExc

/-- `_get_sections_max_raw_size` (source lines 413-443). -/
def get_sections_max_raw_size (json_data : Record) : Except ExErr JVal :=
  match search_and_get json_data "sections" with
  | none => .error .notFound
  | some sections =>
    match pyLen sections with
    | none => .error .pyExc
    | some 0 => .ok (JVal.num 0)
    | some (_ + 1) =>
      match sections with
      | JVal.arr items =>
        match maxField "size" items none with
        | .ok (some m) => .ok (JVal.num m)
        | .ok none => .error .pyExc
        | .error e => .error e
      | _ => .error .pyExc

/-- `_get_sections_mean_virtual_size` (source lines 445-475): over the
per-section `vsize` field. -/
def get_sections_mean_virtual_size (json_data : Record) : Except ExErr JVal :=
  match search_and_get json_data "sections" with
  | none => .error .notFound
  | some sections =>
    match pyLen sections with
    | none => .error .pyExc
    | some 0 => .ok (JVal.num 0)
    | some (n + 1) =>
      match sections with
      | JVal.arr items =>
        match sumField "vsize" items 0 with
        | .ok s => .ok (JVal.num (s / (n + 1 : ℚ)))
        | .error e => .error e
      | _ => .error .pyExc

/-- `_get_sections_min_virtual_size` (source lines 477-507). -/
def get_sections_min_virtual_size (json_data : Record) : Except ExErr JVal :=
  match search_and_get json_data "sections" with
  | none => .error .notFound
  | some sections =>
    match pyLen sections with
    | none => .error .pyExc
    | some 0 => .ok (JVal.num 0)
    | some (_ + 1) =>
      match sections with
      | JVal.arr items =>
        match minField "vsize" items none with
        | .ok (some m) => .ok (JVal.num m)
        | .ok none => .error .pyExc
        | .error e => .error e
      | _ => .error .pyExc

/-- `_get_sections_max_virtual_size` (source lines 509-539). -/
def get_sections_max_virtual_size (json_data : Record) : Except ExErr JVal :=
  match search_and_get json_data "sections" with
  | none => .error .notFound
  | some sections =>
    match pyLen sections with
    | none => .error .pyExc
    | some 0 => .ok (JVal.num 0)
    | some (_ + 1) =>
      match sections with
      | JVal.arr items =>
        match maxField "vsize" items none with
        | .ok (some m) => .ok (JVal.num m)
        | .ok none => .error .pyExc
        | .error e => .error e
      | _ => .error .pyExc

/-- `EMBERJsonlToCSV.__init__` (source lines 18-24): if `"label"` is in the
caller's feature list, remove its first occurrence (`list.remove`), then
append `"label"` at the end; the result is the schema `self._features`. -/
def effectiveFeatures (features : List String) : List String :=
  (if "label" ∈ features then features.erase "label" else features) ++ ["label"]

/-- The feature dispatch of `convert` (source lines 67-101): the fixed
names route to the specialised extractors, in the order of the source's
`elif` chain; any other name falls back to the generic recursive search. -/
def extractFeature (json_data : Record) (feature : String) : Except ExErr JVal :=
  if feature = "sections_mean_entropy" then get_sections_mean_entropy json_data
  else if feature = "sections_min_entropy" then get_sections_min_entropy json_data
  else if feature = "sections_max_entropy" then get_sections_max_entropy json_data
  else if feature = "sections_mean_rawsize" then get_sections_mean_raw_size json_data
  else if feature = "sections_min_rawsize" then get_sections_min_raw_size json_data
  else if feature = "sections_max_rawsize" then get_sections_max_raw_size json_data
  else if feature = "sections_mean_virtualsize" then get_sections_mean_virtual_size json_data
  else if feature = "sections_min_virtualsize" then get_sections_min_virtual_size json_data
  else if feature = "sections_max_virtualsize" then get_sections_max_virtual_size json_data
  else if feature = "debug_size" then get_debug_size json_data
  else if feature = "debug_rva" then get_debug_rva json_data
  else if feature = "iat_rva" then get_iat_rva json_data
  else if feature = "export_size" then get_export_size json_data
  else if feature = "export_rva" then get_export_rva json_data
  else if feature = "resource_size" then get_resource_size json_data
  else
    match search_and_get json_data feature with
    | some v => .ok v
    | none => .error .notFound

/-- Python `isinstance(value, dict) or isinstance(value, list)` (source
line 108): the value is a composite, non-scalar structure. -/
def isComposite : JVal → Bool
  | JVal.obj _ => true
  | JVal.arr _ => true
  | _ => false

/-- Why one record produced no row: `notExtracted` is the
`"Feature could not be extracted."` path (line 103), `complexObject` the
`"Feature is a complex object."` path (line 108), `pyExc` an uncaught
exception escaping an extractor. -/
inductive ProjErr where
  | notExtracted (feature : String)
  | complexObject (feature : String)
  | pyExc
deriving DecidableEq, Repr

/-- The per-record body of `convert`'s loop (source lines 65-115): for each
schema feature in order, dispatch to the resolver; a `(False, _)` outcome or
a dict/list value fails the whole record; on success the row lists the
extracted values in schema order (the `data` dict written by `DictWriter`
with `fieldnames = self._features`). -/
def projectRecord : List String → Record → Except ProjErr (List JVal)
  | [], _ => .ok []
  | feature :: rest, json_data =>
    match extractFeature json_data feature with
    | .error .notFound => .error (.notExtracted feature)
    | .error .pyExc => .error .pyExc
    | .ok value =>
      if isComposite value then .error (.complexObject feature)
      else
        match projectRecord rest json_data with
        | .ok row => .ok (value :: row)
        | .error e => .error e

/-- A file visible to `convert`: either a text file, seen through the
out-of-scope line decoder as a list of per-line decode results (`none` for
a line `json.loads` rejects), or a CSV produced by `convert` itself, with
its header and data rows. -/
inductive FileContent where
  | text (lines : List (Option Record))
  | csv (header : List String) (rows : List (List JVal))

/-- Outcome of `convert`'s record loop: `done` reached the end with these
rows written; `removedFalse` hit a failed extraction or a complex value,
removed the CSV and returned `False`; `crashed` had an uncaught exception
escape with these rows already written (the CSV file survives). -/
inductive LoopOut where
  | done (rows : List (List JVal))
  | removedFalse
  | crashed (rows : List (List JVal))

/-- The line loop of `convert` (source lines 56-119).  On an undecodable
line the handler at lines 60-63 runs `print(e.msg())` first — but
`JSONDecodeError.msg` is a string attribute, not a method, so the call
raises `TypeError` before `os.remove` and `return False` are reached: the
loop crashes with the CSV still on disk. -/
def convertLoop (features : List String) :
    List (Option Record) → List (List JVal) → LoopOut
  | [], rows => .done rows
  | none :: _, rows => .crashed rows
  | some json_data :: rest, rows =>
    match projectRecord features json_data with
    | .ok row => convertLoop features rest (rows ++ [row])
    | .error (.notExtracted _) => .removedFalse
    | .error (.complexObject _) => .removedFalse
    | .error .pyExc => .crashed rows

/-- `os.remove`: drop the entry at `path` from the file system. -/
def removeFile (path : String) (fs : List (String × FileContent)) :
    List (String × FileContent) :=
  fs.filter (fun e => e.1 != path)

/-- `EMBERJsonlToCSV.convert` (source lines 26-122) over an explicit file
system (an association list path ↦ content).  `csv_file_path` stands for the
out-of-scope derived output path (`os.path.splitext(file_path)[0] + '.csv'`).
Result `.ok b` models `return b`; `.error ()` models an uncaught exception
propagating to the caller.  Steps: missing input file → `False`; existing
output file → `False` with the file system untouched; otherwise the CSV is
created with the schema as header and the loop runs: `done` keeps the CSV
with all rows and returns `True`, `removedFalse` deletes the CSV and returns
`False`, `crashed` leaves the partially written CSV in place and propagates
the exception. -/
def convert (features : List String) (fs : List (String × FileContent))
    (file_path csv_file_path : String) :
    Except Unit Bool × List (String × FileContent) :=
  match fs.lookup file_path with
  | none => (.ok false, fs)
  | some content =>
    match fs.lookup csv_file_path with
    | some _ => (.ok false, fs)
    | none =>
      let lines := match content with
        | FileContent.text ls => ls
        | FileContent.csv _ _ => []
      match convertLoop features lines [] with
      | LoopOut.done rows =>
        (.ok true, (csv_file_path, FileContent.csv features rows) :: fs)
      | LoopOut.removedFalse => (.ok false, removeFile csv_file_path fs)
      | LoopOut.crashed rows =>
        (.error (), (csv_file_path, FileContent.csv features rows) :: fs)

mutual

/-- Modelled from the spec's traversal description (§4.1 and §8): the list
of all values whose key matches the feature, collected in depth-first
pre-order, mapping-then-list order — within a mapping each entry's key is
compared before recursing into that entry's value, mapping values are
recursed, and list values have their mapping-typed elements recursed in
order.  The spec claims the generic search returns the head of this list. -/
def specMatches : List (String × JVal) → String → List JVal
  | [], _ => []
  | (k, v) :: rest, feature =>
    (if k = feature then [v]
     else
       match v with
       | JVal.obj fs => specMatches fs feature
       | JVal.arr items => specMatchesItems items feature
       | _ => []) ++ specMatches rest feature

/-- The list-element part of the spec traversal: mapping-typed elements are
searched in order, other elements contribute nothing. -/
def specMatchesItems : List JVal → String → List JVal
  | [], _ => []
  | JVal.obj fs :: rest, feature =>
    specMatches fs feature ++ specMatchesItems rest feature
  | _ :: rest, feature => specMatchesItems rest feature

end

/-- Every section entry is a mapping on which the scoped recursive search
resolves the given sub-field to this numeric value (the source resolves
per-section sub-fields with `_search_and_get(section, feature)`). -/
def entryField (feature : String) (item : JVal) (q : ℚ) : Prop :=
  ∃ fs, item = JVal.obj fs ∧ search_and_get fs feature = some (JVal.num q)

mutual

theorem search_eq_specHead : (fields : List (String × JVal)) → (feature : String) →
    search_and_get fields feature = (specMatches fields feature).head?
  | [], f => by rw [search_and_get.eq_def, specMatches.eq_def]; rfl
  | (k, v) :: rest, feature => by
    rw [search_and_get.eq_def, specMatches.eq_def]
    by_cases hk : k = feature
    · simp [hk]
    · match v with
      | JVal.num q => simp [hk, search_eq_specHead rest feature]
      | JVal.str s => simp [hk, search_eq_specHead rest feature]
      | JVal.bool b => simp [hk, search_eq_specHead rest feature]
      | JVal.null => simp [hk, search_eq_specHead rest feature]
      | JVal.obj fs =>
        have h1 := search_eq_specHead fs feature
        have h2 := search_eq_specHead rest feature
        cases hfs : specMatches fs feature with
        | nil => simp [hk, h1, h2, hfs]
        | cons x xs => simp [hk, h1, hfs]
      | JVal.arr items =>
        have h1 := searchItems_eq_specHead items feature
        have h2 := search_eq_specHead rest feature
        cases hits : specMatchesItems items feature with
        | nil => simp [hk, h1, h2, hits]
        | cons x xs => simp [hk, h1, hits]

theorem searchItems_eq_specHead : (items : List JVal) → (feature : String) →
    searchItems items feature = (specMatchesItems items feature).head?
  | [], f => by rw [searchItems.eq_def, specMatchesItems.eq_def]; rfl
  | item :: rest, feature => by
    rw [searchItems.eq_def, specMatchesItems.eq_def]
    match item with
    | JVal.num q => simp [searchItems_eq_specHead rest feature]
    | JVal.str s => simp [searchItems_eq_specHead rest feature]
    | JVal.bool b => simp [searchItems_eq_specHead rest feature]
    | JVal.null => simp [searchItems_eq_specHead rest feature]
    | JVal.arr xs => simp [searchItems_eq_specHead rest feature]
    | JVal.obj fs =>
      have h1 := search_eq_specHead fs feature
      have h2 := searchItems_eq_specHead rest feature
      cases hfs : specMatches fs feature with
      | nil => simp [h1, h2, hfs]
      | cons x xs => simp [h1, hfs]

end

/-- C5: the generic search `_search_and_get` performs the full depth-first
pre-order, mapping-then-list traversal described by the spec and returns the
first match encountered in that order (`specMatches` collects all matches in
spec traversal order); in particular the earlier-encountered of two equal
keys at different depths wins, and `(False, None)` is returned exactly when
the whole tree holds no match. -/
theorem C5_search_first_match_preorder (fields : List (String × JVal)) (feature : String) :
    search_and_get fields feature = (specMatches fields feature).head? ∧
    (search_and_get fields feature = none ↔ specMatches fields feature = []) := by
  refine ⟨search_eq_specHead fields feature, ?_⟩
  rw [search_eq_specHead fields feature]
  cases specMatches fields feature <;> simp

/-- C10: `_get_export_rva` and `_get_export_size` have identical bodies
(both read entry 0's `size` of the `datadirectories` table), so on every
record they return the same outcome. -/
theorem C10_export_rva_eq_export_size (json_data : Record) :
    get_export_rva json_data = get_export_size json_data := rfl

/-- C7: on every record whose `"sections"` key resolves to an empty
sequence, each of the nine section aggregates takes the explicit
`len(sections) == 0` branch and succeeds with exactly `0.0`. -/
theorem C7_empty_sections_all_zero (json_data : Record)
    (h : search_and_get json_data "sections" = some (JVal.arr [])) :
    get_sections_mean_entropy json_data = .ok (JVal.num 0) ∧
    get_sections_min_entropy json_data = .ok (JVal.num 0) ∧
    get_sections_max_entropy json_data = .ok (JVal.num 0) ∧
    get_sections_mean_raw_size json_data = .ok (JVal.num 0) ∧
    get_sections_min_raw_size json_data = .ok (JVal.num 0) ∧
    get_sections_max_raw_size json_data = .ok (JVal.num 0) ∧
    get_sections_mean_virtual_size json_data = .ok (JVal.num 0) ∧
    get_sections_min_virtual_size json_data = .ok (JVal.num 0) ∧
    get_sections_max_virtual_size json_data = .ok (JVal.num 0) := by
  refine ⟨?_, ?_, ?_, ?_, ?_, ?_, ?_, ?_, ?_⟩ <;>
    simp [get_sections_mean_entropy, get_sections_min_entropy, get_sections_max_entropy,
      get_sections_mean_raw_size, get_sections_min_raw_size, get_sections_max_raw_size,
      get_sections_mean_virtual_size, get_sections_min_virtual_size,
      get_sections_max_virtual_size, h, pyLen]

/-- Closed witness for C7 at the record `{"sections": []}`. -/
theorem C7_empty_sections_all_zero_witness :
    search_and_get [("sections", JVal.arr [])] "sections" = some (JVal.arr []) ∧
    (get_sections_mean_entropy [("sections", JVal.arr [])] = .ok (JVal.num 0) ∧
      get_sections_min_entropy [("sections", JVal.arr [])] = .ok (JVal.num 0) ∧
      get_sections_max_entropy [("sections", JVal.arr [])] = .ok (JVal.num 0) ∧
      get_sections_mean_raw_size [("sections", JVal.arr [])] = .ok (JVal.num 0) ∧
      get_sections_min_raw_size [("sections", JVal.arr [])] = .ok (JVal.num 0) ∧
      get_sections_max_raw_size [("sections", JVal.arr [])] = .ok (JVal.num 0) ∧
      get_sections_mean_virtual_size [("sections", JVal.arr [])] = .ok (JVal.num 0) ∧
      get_sections_min_virtual_size [("sections", JVal.arr [])] = .ok (JVal.num 0) ∧
      get_sections_max_virtual_size [("sections", JVal.arr [])] = .ok (JVal.num 0)) :=
  ⟨by simp [search_and_get.eq_def],
    C7_empty_sections_all_zero [("sections", JVal.arr [])] (by simp [search_and_get.eq_def])⟩

/-- C1: evaluating the data-directory extractors at a record whose
`datadirectories` is a well-formed 13-entry table (entry `i` carries
`size = 100 + i` and `virtual_address = 200 + i`): `export_size`,
`resource_size`, `debug_rva` and `iat_rva` return what the claim states,
but `debug_size` returns entry 6's `virtual_address` (206), not entry 6's
`size` (106) — the second of the two same-named `_get_debug_size`
definitions shadows the first and reads `virtual_address`, so the claim's
`debug_size` clause fails on the code. -/
theorem C1_debug_size_reads_virtual_address :
    get_export_size [("datadirectories", JVal.arr ((List.range 13).map
        (fun i => JVal.obj [("size", JVal.num (100 + i)), ("virtual_address", JVal.num (200 + i))])))]
      = .ok (JVal.num 100) ∧
    get_resource_size [("datadirectories", JVal.arr ((List.range 13).map
        (fun i => JVal.obj [("size", JVal.num (100 + i)), ("virtual_address", JVal.num (200 + i))])))]
      = .ok (JVal.num 102) ∧
    get_debug_rva [("datadirectories", JVal.arr ((List.range 13).map
        (fun i => JVal.obj [("size", JVal.num (100 + i)), ("virtual_address", JVal.num (200 + i))])))]
      = .ok (JVal.num 206) ∧
    get_iat_rva [("datadirectories", JVal.arr ((List.range 13).map
        (fun i => JVal.obj [("size", JVal.num (100 + i)), ("virtual_address", JVal.num (200 + i))])))]
      = .ok (JVal.num 212) ∧
    get_debug_size [("datadirectories", JVal.arr ((List.range 13).map
        (fun i => JVal.obj [("size", JVal.num (100 + i)), ("virtual_address", JVal.num (200 + i))])))]
      = .ok (JVal.num 206) ∧
    ¬ get_debug_size [("datadirectories", JVal.arr ((List.range 13).map
        (fun i => JVal.obj [("size", JVal.num (100 + i)), ("virtual_address", JVal.num (200 + i))])))]
      = .ok (JVal.num 106) := by
  refine ⟨?_, ?_, ?_, ?_, ?_, ?_⟩ <;>
    simp [get_export_size, get_resource_size, get_debug_rva, get_iat_rva, get_debug_size,
      search_and_get.eq_def, pyLen, pyGetItem, pyGetKey,
      List.range, List.range.loop, List.lookup] <;> norm_num

/-- C9: whenever the derived output path already names an existing file,
`convert` returns `False` before opening anything and the file system —
including the existing output file's contents — is unchanged. -/
theorem C9_refuses_existing_output (features : List String)
    (fs : List (String × FileContent)) (file_path csv_file_path : String)
    (c : FileContent) (h : fs.lookup csv_file_path = some c) :
    convert features fs file_path csv_file_path = (.ok false, fs) := by
  unfold convert
  cases hfp : fs.lookup file_path with
  | none => rfl
  | some content => rw [h]

/-- Closed witness for C9: an output file `out.csv` that already exists is
left alone and `convert` reports failure. -/
theorem C9_refuses_existing_output_witness :
    List.lookup "out.csv" [("out.csv", FileContent.csv [] [])] = some (FileContent.csv [] []) ∧
    convert ["label"] [("out.csv", FileContent.csv [] [])] "in.jsonl" "out.csv"
      = (.ok false, [("out.csv", FileContent.csv [] [])]) :=
  ⟨by simp [List.lookup],
    C9_refuses_existing_output ["label"] [("out.csv", FileContent.csv [] [])]
      "in.jsonl" "out.csv" (FileContent.csv [] []) (by simp [List.lookup])⟩

/-- Counterexample to C3: with the caller-supplied list `["label","label"]`,
`list.remove` deletes only the first occurrence before `"label"` is
appended, so the effective schema is `["label","label"]` and contains
`"label"` twice, not exactly once. -/
theorem C3_duplicate_label_counterexample :
    effectiveFeatures ["label", "label"] = ["label", "label"] ∧
    List.count "label" (effectiveFeatures ["label", "label"]) = 2 := by
  constructor <;> simp [effectiveFeatures, List.count, List.erase]

/-- C3 amended: for every caller-supplied feature list in which `"label"`
appears exactly once, the effective schema built at construction contains
`"label"` exactly once, and that occurrence is the last entry. -/
theorem C3_label_once_last (features : List String)
    (h : List.count "label" features = 1) :
    List.count "label" (effectiveFeatures features) = 1 ∧
    (effectiveFeatures features).getLast? = some "label" := by
  have hmem : "label" ∈ features := by
    have : 0 < List.count "label" features := by omega
    exact List.count_pos_iff.mp this
  constructor
  · simp [effectiveFeatures, hmem, List.count_append, List.count_erase_self, h]
  · simp [effectiveFeatures, List.getLast?_concat]

/-- Closed witness for C3 amended at the input `["md5", "label", "machine"]`. -/
theorem C3_label_once_last_witness :
    List.count "label" ["md5", "label", "machine"] = 1 ∧
    (List.count "label" (effectiveFeatures ["md5", "label", "machine"]) = 1 ∧
      (effectiveFeatures ["md5", "label", "machine"]).getLast? = some "label") :=
  ⟨by decide, C3_label_once_last ["md5", "label", "machine"] (by decide)⟩

/-- Counterexample to C2: the constructor always appends `"label"`, so the
schema `["sections_mean_entropy"]` becomes the two-column effective schema
`["sections_mean_entropy", "label"]`, and projecting the record
`{"sections": []}` fails on the missing `"label"` feature instead of
emitting the row `[0.0]`. -/
theorem C2_empty_sections_counterexample :
    effectiveFeatures ["sections_mean_entropy"] = ["sections_mean_entropy", "label"] ∧
    projectRecord (effectiveFeatures ["sections_mean_entropy"]) [("sections", JVal.arr [])]
      = .error (ProjErr.notExtracted "label") := by
  constructor
  · simp [effectiveFeatures]
  · simp [effectiveFeatures, projectRecord, extractFeature, get_sections_mean_entropy,
      search_and_get.eq_def, searchItems.eq_def, pyLen, isComposite]

/-- C2 amended: with the schema `["sections_mean_entropy"]` the effective
schema is `["sections_mean_entropy", "label"]`; on a record whose
`"sections"` is the empty sequence the aggregate column is `0.0`, but the
projection only succeeds when the record also carries a scalar `"label"`,
in which case the emitted row is `[0.0, label]` — end to end, `convert`
writes exactly that row. -/
theorem C2_empty_sections_row (lbl : ℚ) :
    projectRecord (effectiveFeatures ["sections_mean_entropy"])
        [("sections", JVal.arr []), ("label", JVal.num lbl)]
      = .ok [JVal.num 0, JVal.num lbl] ∧
    convert (effectiveFeatures ["sections_mean_entropy"])
        [("in.jsonl", FileContent.text [some [("sections", JVal.arr []), ("label", JVal.num lbl)]])]
        "in.jsonl" "in.csv"
      = (.ok true,
          [("in.csv", FileContent.csv ["sections_mean_entropy", "label"] [[JVal.num 0, JVal.num lbl]]),
           ("in.jsonl", FileContent.text [some [("sections", JVal.arr []), ("label", JVal.num lbl)]])]) := by
  constructor
  · simp [effectiveFeatures, projectRecord, extractFeature, get_sections_mean_entropy,
      search_and_get.eq_def, searchItems.eq_def, pyLen, isComposite]
  · simp [convert, List.lookup, convertLoop, effectiveFeatures, projectRecord, extractFeature,
      get_sections_mean_entropy, search_and_get.eq_def, searchItems.eq_def, pyLen, isComposite]

/-- C4, evaluated at the failing input: a file `in.jsonl` whose only line
cannot be decoded.  The handler for `json.JSONDecodeError` calls
`print(e.msg())`, but `msg` is a string attribute, not a method, so a
`TypeError` is raised before `os.remove(csv_file_path)` and `return False`
execute: `convert` propagates an exception (it does not report `False`) and
the partially written CSV — header only, no rows — remains on disk. -/
theorem C4_malformed_line_leaves_partial_csv :
    convert ["label"] [("in.jsonl", FileContent.text [none])] "in.jsonl" "in.csv"
      = (.error (),
          [("in.csv", FileContent.csv ["label"] []),
           ("in.jsonl", FileContent.text [none])]) ∧
    List.lookup "in.csv"
        (convert ["label"] [("in.jsonl", FileContent.text [none])] "in.jsonl" "in.csv").2
      = some (FileContent.csv ["label"] []) ∧
    (convert ["label"] [("in.jsonl", FileContent.text [none])] "in.jsonl" "in.csv").1
      ≠ .ok false := by
  refine ⟨?_, ?_, ?_⟩ <;> simp [convert, List.lookup, convertLoop]

theorem sumField_forall₂ (feature : String) {items : List JVal} {es : List ℚ}
    (h : List.Forall₂ (entryField feature) items es) :
    ∀ acc : ℚ, sumField feature items acc = .ok (acc + es.sum) := by
  induction h with
  | nil => intro acc; simp [sumField]
  | cons hd _ ih =>
    intro acc
    obtain ⟨fs, rfl, hsearch⟩ := hd
    simp [sumField, hsearch, pyNum, ih, add_assoc]

theorem minField_forall₂ (feature : String) {items : List JVal} {es : List ℚ}
    (h : List.Forall₂ (entryField feature) items es) :
    ∀ acc : Option ℚ, minField feature items acc = .ok (es.foldl runMin acc) := by
  induction h with
  | nil => intro acc; simp [minField]
  | cons hd _ ih =>
    intro acc
    obtain ⟨fs, rfl, hsearch⟩ := hd
    simp [minField, hsearch, pyNum, ih]

theorem maxField_forall₂ (feature : String) {items : List JVal} {es : List ℚ}
    (h : List.Forall₂ (entryField feature) items es) :
    ∀ acc : Option ℚ, maxField feature items acc = .ok (es.foldl runMax acc) := by
  induction h with
  | nil => intro acc; simp [maxField]
  | cons hd _ ih =>
    intro acc
    obtain ⟨fs, rfl, hsearch⟩ := hd
    simp [maxField, hsearch, pyNum, ih]

theorem foldl_runMin_some : ∀ (qs : List ℚ) (a : ℚ),
    qs.foldl runMin (some a) = some (qs.foldl min a)
  | [], _ => rfl
  | q :: qs, a => by simp [runMin, foldl_runMin_some qs]

theorem foldl_runMax_some : ∀ (qs : List ℚ) (a : ℚ),
    qs.foldl runMax (some a) = some (qs.foldl max a)
  | [], _ => rfl
  | q :: qs, a => by simp [runMax, foldl_runMax_some qs]

/-- C6: on a record whose `"sections"` resolves to a non-empty sequence of
mappings in which the scoped search resolves `"entropy"` to the numeric
value listed in `es` entry by entry, the mean aggregate returns the sum of
`es` divided by its length, and the min/max aggregates return the minimum
resp. maximum of `es`. -/
theorem C6_entropy_mean_min_max (json_data : Record) (items : List JVal)
    (es : List ℚ) (m M : ℚ)
    (hs : search_and_get json_data "sections" = some (JVal.arr items))
    (hrel : List.Forall₂ (entryField "entropy") items es)
    (hne : items ≠ [])
    (hmin : es.min? = some m) (hmax : es.max? = some M) :
    get_sections_mean_entropy json_data = .ok (JVal.num (es.sum / es.length)) ∧
    get_sections_min_entropy json_data = .ok (JVal.num m) ∧
    get_sections_max_entropy json_data = .ok (JVal.num M) := by
  have hlen : items.length = es.length := hrel.length_eq
  obtain ⟨it, its, rfl⟩ := List.exists_cons_of_ne_nil hne
  obtain ⟨e, es', rfl⟩ : ∃ e es', es = e :: es' := by
    cases es with
    | nil => simp at hlen
    | cons e es' => exact ⟨e, es', rfl⟩
  have hlen' : its.length = es'.length := by simpa using hlen
  refine ⟨?_, ?_, ?_⟩
  · have hsum := sumField_forall₂ "entropy" hrel 0
    simp only [get_sections_mean_entropy, hs, pyLen, List.length_cons, hsum, zero_add, hlen']
    norm_cast
  · have hfold := minField_forall₂ "entropy" hrel none
    have : (e :: es').foldl runMin none = some (es'.foldl min e) := by
      simp [runMin, foldl_runMin_some]
    rw [this] at hfold
    have hm : m = es'.foldl min e := by
      have : (e :: es').min? = some (es'.foldl min e) := rfl
      rw [this] at hmin
      exact (Option.some.injEq _ _ ▸ hmin).symm
    simp only [get_sections_min_entropy, hs, pyLen, List.length_cons, hfold, hm]
  · have hfold := maxField_forall₂ "entropy" hrel none
    have : (e :: es').foldl runMax none = some (es'.foldl max e) := by
      simp [runMax, foldl_runMax_some]
    rw [this] at hfold
    have hM : M = es'.foldl max e := by
      have : (e :: es').max? = some (es'.foldl max e) := rfl
      rw [this] at hmax
      exact (Option.some.injEq _ _ ▸ hmax).symm
    simp only [get_sections_max_entropy, hs, pyLen, List.length_cons, hfold, hM]

/-- Closed witness for C6: sections `[{"entropy": 1}, {"entropy": 4}]` give
mean `5/2`, min `1`, max `4`. -/
theorem C6_entropy_mean_min_max_witness :
    search_and_get [("sections", JVal.arr [JVal.obj [("entropy", JVal.num 1)],
        JVal.obj [("entropy", JVal.num 4)]])] "sections"
      = some (JVal.arr [JVal.obj [("entropy", JVal.num 1)], JVal.obj [("entropy", JVal.num 4)]]) ∧
    List.Forall₂ (entryField "entropy")
      [JVal.obj [("entropy", JVal.num 1)], JVal.obj [("entropy", JVal.num 4)]] [1, 4] ∧
    List.min? [(1 : ℚ), 4] = some 1 ∧ List.max? [(1 : ℚ), 4] = some 4 ∧
    (get_sections_mean_entropy [("sections", JVal.arr [JVal.obj [("entropy", JVal.num 1)],
        JVal.obj [("entropy", JVal.num 4)]])]
      = .ok (JVal.num (List.sum [(1 : ℚ), 4] / (List.length [(1 : ℚ), 4] : ℚ))) ∧
    get_sections_min_entropy [("sections", JVal.arr [JVal.obj [("entropy", JVal.num 1)],
        JVal.obj [("entropy", JVal.num 4)]])] = .ok (JVal.num 1) ∧
    get_sections_max_entropy [("sections", JVal.arr [JVal.obj [("entropy", JVal.num 1)],
        JVal.obj [("entropy", JVal.num 4)]])] = .ok (JVal.num 4)) := by
  have hs : search_and_get [("sections", JVal.arr [JVal.obj [("entropy", JVal.num 1)],
      JVal.obj [("entropy", JVal.num 4)]])] "sections"
      = some (JVal.arr [JVal.obj [("entropy", JVal.num 1)], JVal.obj [("entropy", JVal.num 4)]]) := by
    simp [search_and_get.eq_def]
  have hrel : List.Forall₂ (entryField "entropy")
      [JVal.obj [("entropy", JVal.num 1)], JVal.obj [("entropy", JVal.num 4)]] [1, 4] :=
    List.Forall₂.cons ⟨[("entropy", JVal.num 1)], rfl, by simp [search_and_get.eq_def]⟩
      (List.Forall₂.cons ⟨[("entropy", JVal.num 4)], rfl, by simp [search_and_get.eq_def]⟩
        List.Forall₂.nil)
  have hmin : List.min? [(1 : ℚ), 4] = some 1 := by norm_num [List.min?, List.foldl, min_def]
  have hmax : List.max? [(1 : ℚ), 4] = some 4 := by norm_num [List.max?, List.foldl, max_def]
  exact ⟨hs, hrel, hmin, hmax,
    C6_entropy_mean_min_max _ _ [1, 4] 1 4 hs hrel (by simp) hmin hmax⟩

theorem projectRecord_error_of_composite (json_data : Record) (f : String) (v : JVal)
    (h₂ : extractFeature json_data f = .ok v) (h₃ : isComposite v = true) :
    ∀ features : List String, f ∈ features →
      ∃ e, projectRecord features json_data = .error e := by
  intro features hmem
  induction features with
  | nil => simp at hmem
  | cons g rest ih =>
    by_cases hg : f = g
    · subst hg
      exact ⟨ProjErr.complexObject f, by simp [projectRecord, h₂, h₃]⟩
    · have hf : f ∈ rest := by
        rcases List.mem_cons.mp hmem with h | h
        · exact absurd h hg
        · exact h
      obtain ⟨e, he⟩ := ih hf
      cases hx : extractFeature json_data g with
      | error err =>
        cases err with
        | notFound => exact ⟨ProjErr.notExtracted g, by simp [projectRecord, hx]⟩
        | pyExc => exact ⟨ProjErr.pyExc, by simp [projectRecord, hx]⟩
      | ok w =>
        by_cases hw : isComposite w
        · exact ⟨ProjErr.complexObject g, by simp [projectRecord, hx, hw]⟩
        · exact ⟨e, by simp [projectRecord, hx, hw, he]⟩

theorem projectRecord_complex_first (json_data : Record) (f : String) (v : JVal)
    (h₂ : extractFeature json_data f = .ok v) (h₃ : isComposite v = true) :
    ∀ (pre post : List String),
      (∀ g ∈ pre, ∃ w, extractFeature json_data g = .ok w ∧ isComposite w = false) →
      projectRecord (pre ++ f :: post) json_data = .error (ProjErr.complexObject f) := by
  intro pre
  induction pre with
  | nil => intro post _; simp [projectRecord, h₂, h₃]
  | cons g pre' ih =>
    intro post hpre
    obtain ⟨w, hw, hwc⟩ := hpre g (List.mem_cons_self g pre')
    have hrest := ih post (fun g' hg' => hpre g' (List.mem_cons_of_mem g hg'))
    simp [projectRecord, List.cons_append, hw, hwc, hrest]

/-- C8: if any schema feature resolves to a composite (mapping or sequence)
value, the projection of the whole record fails — no row is produced — and
whenever every feature before it in the schema resolves to a scalar, the
failure is precisely the complex-object (non-scalar) kind for that feature;
the composite value is never flattened or coerced into a row. -/
theorem C8_composite_value_fails_projection (features : List String) (json_data : Record)
    (f : String) (v : JVal)
    (h₁ : f ∈ features) (h₂ : extractFeature json_data f = .ok v)
    (h₃ : isComposite v = true) :
    (∃ e, projectRecord features json_data = .error e) ∧
    (∀ pre post, features = pre ++ f :: post →
      (∀ g ∈ pre, ∃ w, extractFeature json_data g = .ok w ∧ isComposite w = false) →
      projectRecord features json_data = .error (ProjErr.complexObject f)) := by
  refine ⟨projectRecord_error_of_composite json_data f v h₂ h₃ features h₁, ?_⟩
  intro pre post hsplit hpre
  subst hsplit
  exact projectRecord_complex_first json_data f v h₂ h₃ pre post hpre

/-- Closed witness for C8: requesting the composite `"sections"` itself on a
record with non-empty sections fails the projection with the complex-object
kind. -/
theorem C8_composite_value_fails_projection_witness :
    ("sections" ∈ ["sections"] ∧
      extractFeature [("sections", JVal.arr [JVal.num 1])] "sections"
        = .ok (JVal.arr [JVal.num 1]) ∧
      isComposite (JVal.arr [JVal.num 1]) = true) ∧
    ((∃ e, projectRecord ["sections"] [("sections", JVal.arr [JVal.num 1])] = .error e) ∧
      (∀ pre post, ["sections"] = pre ++ "sections" :: post →
        (∀ g ∈ pre, ∃ w, extractFeature [("sections", JVal.arr [JVal.num 1])] g = .ok w ∧
          isComposite w = false) →
        projectRecord ["sections"] [("sections", JVal.arr [JVal.num 1])]
          = .error (ProjErr.complexObject "sections"))) := by
  have h₁ : "sections" ∈ ["sections"] := by simp
  have h₂ : extractFeature [("sections", JVal.arr [JVal.num 1])] "sections"
      = .ok (JVal.arr [JVal.num 1]) := by
    simp [extractFeature, search_and_get.eq_def]
  have h₃ : isComposite (JVal.arr [JVal.num 1]) = true := rfl
  exact ⟨⟨h₁, h₂, h₃⟩,
    C8_composite_value_fails_projection ["sections"] [("sections", JVal.arr [JVal.num 1])]
      "sections" (JVal.arr [JVal.num 1]) h₁ h₂ h₃⟩

end EmberJsonlToCsv
